import Mathlib

/-!
Shallow embedding of `src/background/update.js` (the style update checker):
the reconciliation pipeline `checkStyle` with its inner steps
(`checkIfEdited`, `maybeUpdateUSO`, `maybeUpdateUsercss`, `maybeSave`,
`reportFailure`), the scheduler `schedule` and the log flusher `flushQueue`.

External collaborators (`calcStyleDigest`, `download`, `tryJSONparse`,
`usercss.buildMeta`, `usercss.buildCode`, `semverCompare`,
`styleSectionsEqual`) are not part of this file; they are parameters of
the model, gathered in an `Env` record, and the theorems quantify over
them.  Store writes (`saveStyle`, `API_METHODS.saveUsercss`) and log lines
are tracked as explicit effect lists in the result.
-/

set_option maxRecDepth 8000

namespace Update

/-- JS values that flow through the rejection channel of the promise
pipeline: the reason strings of `STATES` and numeric transport statuses. -/
inductive JsVal where
  | str : String → JsVal
  | num : Nat → JsVal
deriving DecidableEq, Repr

/-- String interpolation of a rejection value into a log line
(template literal semantics: numbers print in decimal). -/
def jsDisplay : JsVal → String
  | .str s => s
  | .num n => toString n

/-- One code section of a style document; `code` is `some` exactly when the
JSON field is present and a string (`typeof sections[0].code === 'string'`). -/
structure StyleSection where
  code : Option String
deriving DecidableEq, Repr

/-- A locally stored style (the fields `update.js` consults).
`usercssVersion` stands for `style.usercssData` (present with its
`version` string, or absent); `originalDigest` and `originalMd5` are
absent-or-string. -/
structure Style where
  id : Nat
  name : String
  originalName : String
  sourceCode : String
  sections : List StyleSection
  originalDigest : Option String
  originalMd5 : Option String
  md5Url : String
  updateUrl : String
  usercssVersion : Option String
deriving DecidableEq, Repr

/-- A candidate style document (parsed remote JSON or built usercss),
with the fields `maybeSave` stamps or reads. -/
structure StyleDoc where
  id : Option Nat
  name : Option String
  originalName : Option String
  enabled : Option Bool
  reason : Option String
  updateDate : Option Nat
  usercssData : Bool
  sections : Option (List StyleSection)
deriving DecidableEq, Repr

/-- The `{}` default of `maybeSave(json = {})`: every field absent. -/
def emptyDoc : StyleDoc :=
  { id := none, name := none, originalName := none, enabled := none,
    reason := none, updateDate := none, usercssData := false, sections := none }

/-- Metadata produced by `usercss.buildMeta`: the part the updater reads
is `usercssData.version`. -/
structure UMeta where
  version : String
deriving DecidableEq, Repr

/-- Which store API a save goes through:
`saveStyle` (global) or `API_METHODS.saveUsercss`. -/
inductive SaveApi where
  | saveStyle
  | saveUsercss
deriving DecidableEq, Repr

/-- One store write performed by the pipeline. -/
structure SaveCall where
  api : SaveApi
  doc : StyleDoc
deriving DecidableEq, Repr

/-- External collaborators of `update.js`, as pure oracles.
`download` yields the response text or a numeric transport status
(0 = unreachable); `tryJSONparse` yields `none` for malformed JSON;
`buildMeta` and `buildCode` may fail with an arbitrary error value;
`styleSectionsEqual` is consulted only through its boolean verdict on the
candidate and local section lists. -/
structure Env where
  calcStyleDigest : Style → String
  download : String → Except Nat String
  tryJSONparse : String → Option StyleDoc
  buildMeta : String → Except JsVal UMeta
  buildCode : UMeta → Except JsVal StyleDoc
  semverCompare : String → String → Int
  styleSectionsEqual : Option (List StyleSection) → List StyleSection → Bool

-- The `STATES` table of `update.js`, values verbatim.
namespace STATES

def UPDATED : String := "updated"

def SKIPPED : String := "skipped"

def EDITED : String := "locally edited"

def MAYBE_EDITED : String := "may be locally edited"

def SAME_MD5 : String := "up-to-date: MD5 is unchanged"

def SAME_CODE : String := "up-to-date: code sections are unchanged"

def SAME_VERSION : String := "up-to-date: version is unchanged"

def ERROR_MD5 : String := "error: MD5 is invalid"

def ERROR_JSON : String := "error: JSON is invalid"

def ERROR_VERSION : String := "error: version is older than installed style"

end STATES

/-- JS truthiness of an optional string field: present and non-empty. -/
def truthyStr : Option String → Bool
  | some s => s ≠ ""
  | none => false

/-- `checkIfEdited(digest)`: reject `EDITED` when `style.originalDigest`
is truthy and differs from the freshly computed digest. -/
def checkIfEdited (style : Style) (digest : String) : Except JsVal Unit :=
  match style.originalDigest with
  | some d => if d ≠ "" ∧ d ≠ digest then .error (.str STATES.EDITED) else .ok ()
  | none => .ok ()

/-- `styleJSONseemsValid(json)`: `sections` present, non-empty, and the
first section's `code` is a string.  (The source also checks
`typeof sections.every === 'function'`, which holds of every array; the
typed `sections` field subsumes it.) -/
def styleJSONseemsValid (json : StyleDoc) : Bool :=
  match json.sections with
  | some (s :: _) => s.code.isSome
  | _ => false

/-- `maybeUpdateUSO()`: fetch the MD5; reject `ERROR_MD5` unless it is a
non-empty 32-character string; reject `SAME_MD5` when it equals
`originalMd5`, `originalDigest` is truthy and `ignoreDigest` is unset;
otherwise fetch the full document and parse it (`undefined` from
`tryJSONparse` becomes the `{}` default of `maybeSave`).  The second
component lists the URLs downloaded, in order. -/
def maybeUpdateUSO (env : Env) (style : Style) (ignoreDigest : Bool) :
    Except JsVal StyleDoc × List String :=
  match env.download style.md5Url with
  | .error s => (.error (.num s), [style.md5Url])
  | .ok md5 =>
    if md5 = "" ∨ md5.length ≠ 32 then
      (.error (.str STATES.ERROR_MD5), [style.md5Url])
    else if style.originalMd5 = some md5 ∧ truthyStr style.originalDigest ∧ ¬ignoreDigest then
      (.error (.str STATES.SAME_MD5), [style.md5Url])
    else
      match env.download style.updateUrl with
      | .error s => (.error (.num s), [style.md5Url, style.updateUrl])
      | .ok text => (.ok ((env.tryJSONparse text).getD emptyDoc), [style.md5Url, style.updateUrl])

/-- `maybeUpdateUsercss()`: fetch the source, build its metadata, then
branch on `Math.sign(semverCompare(localVersion, remoteVersion))`:
`0` → `SAME_VERSION` unless `ignoreDigest`, then `SAME_CODE` on verbatim
equal text, else build; `1` (remote older) → `ERROR_VERSION`; otherwise
(remote newer) build. -/
def maybeUpdateUsercss (env : Env) (style : Style) (ignoreDigest : Bool) :
    Except JsVal StyleDoc × List String :=
  match env.download style.updateUrl with
  | .error s => (.error (.num s), [style.updateUrl])
  | .ok text =>
    match env.buildMeta text with
    | .error e => (.error e, [style.updateUrl])
    | .ok meta =>
      let version := style.usercssVersion.getD ""
      let s := (env.semverCompare version meta.version).sign
      if s = 0 then
        if ¬ignoreDigest then
          (.error (.str STATES.SAME_VERSION), [style.updateUrl])
        else if text = style.sourceCode then
          (.error (.str STATES.SAME_CODE), [style.updateUrl])
        else
          (env.buildCode meta, [style.updateUrl])
      else if s = 1 then
        (.error (.str STATES.ERROR_VERSION), [style.updateUrl])
      else
        (env.buildCode meta, [style.updateUrl])

/-- The candidate after `maybeSave`'s stamping block: local id, update
timestamp, reason `update`, `enabled` dropped, and the local-name
customization rule (`delete json.name` when the local name was customized
and differs from the candidate's, else adopt the candidate's name as the
new `originalName`). -/
def stampDoc (style : Style) (now : Nat) (json : StyleDoc) : StyleDoc :=
  let j := { json with id := some style.id, updateDate := some now,
                       reason := some "update", enabled := none }
  if style.originalName ≠ style.name ∧ j.name ≠ some style.name then
    { j with name := none }
  else
    { j with originalName := j.name }

/-- `maybeSave(json)`: validate (usercss is pre-validated by the build),
stamp, then: equal sections → persist a digest-refresh patch with reason
`update-digest` through `saveStyle` regardless of `save`, and reject
`SAME_CODE`; no truthy `originalDigest` and not `ignoreDigest` → reject
`MAYBE_EDITED`; else persist through `saveUsercss`/`saveStyle` when
`save`, or return the candidate unpersisted. -/
def maybeSave (env : Env) (style : Style) (save ignoreDigest : Bool) (now : Nat)
    (json0 : StyleDoc) : Except JsVal StyleDoc × List SaveCall :=
  if ¬json0.usercssData ∧ ¬styleJSONseemsValid json0 then
    (.error (.str STATES.ERROR_JSON), [])
  else
    let j := stampDoc style now json0
    if env.styleSectionsEqual j.sections style.sections then
      (.error (.str STATES.SAME_CODE),
        [⟨.saveStyle, { j with reason := some "update-digest" }⟩])
    else if ¬truthyStr style.originalDigest ∧ ¬ignoreDigest then
      (.error (.str STATES.MAYBE_EDITED), [])
    else if save then
      (.ok j, [⟨if j.usercssData then .saveUsercss else .saveStyle, j⟩])
    else
      (.ok j, [])

/-- The pipeline of `checkStyle` up to (not including) the report step:
edit guard (skipped under `ignoreDigest`), path selection on
`style.usercssData`, then `maybeSave`.  Returns the settled value and the
download/save effects. -/
def checkStyleCore (env : Env) (style : Style) (save ignoreDigest : Bool) (now : Nat) :
    Except JsVal StyleDoc × List String × List SaveCall :=
  let guard : Except JsVal Unit :=
    if ignoreDigest then .ok () else checkIfEdited style (env.calcStyleDigest style)
  match guard with
  | .error e => (.error e, [], [])
  | .ok _ =>
    let step :=
      if style.usercssVersion.isSome then maybeUpdateUsercss env style ignoreDigest
      else maybeUpdateUSO env style ignoreDigest
    match step.1 with
    | .error e => (.error e, step.2, [])
    | .ok doc =>
      let saved := maybeSave env style save ignoreDigest now doc
      (saved.1, step.2, saved.2)

/-- How one `checkStyle` call settles: `updated` (resolved success info),
`failure` (resolved error info from `reportFailure`), or `thrown`
(the promise rejects with a raised exception). -/
inductive CheckResult where
  | updated : StyleDoc → CheckResult
  | failure : JsVal → CheckResult
  | thrown : String → CheckResult
deriving DecidableEq, Repr

/-- `reportFailure(error)`.  On `error === 503` the code evaluates
`retrying.get(id)` — but `retrying` is a `Set`, which has no `get`
method, so the call raises a `TypeError` inside the `.catch` handler and
the promise rejects; no retry timer is ever set and nothing is logged.
Otherwise a status `0` is replaced by `server unreachable`, a
`skipped (reason) #id name` line is logged, and the error info resolves. -/
def reportFailure (style : Style) (e : JsVal) : CheckResult × List String :=
  if e = .num 503 then
    (.thrown "TypeError: retrying.get is not a function", [])
  else
    let e2 := if e = .num 0 then JsVal.str "server unreachable" else e
    (.failure e2,
      [STATES.SKIPPED ++ " (" ++ jsDisplay e2 ++ ") #" ++ toString style.id ++ " " ++ style.name])

/-- Everything observable about one `checkStyle` call: how it settled and
the downloads, store writes and log lines it performed. -/
structure CheckOutcome where
  result : CheckResult
  downloads : List String
  saves : List SaveCall
  logs : List String
deriving DecidableEq, Repr

/-- `checkStyle({style, save, ignoreDigest})`: the core pipeline followed
by `reportSuccess` / `reportFailure`. -/
def checkStyle (env : Env) (style : Style) (save ignoreDigest : Bool) (now : Nat) :
    CheckOutcome :=
  let core := checkStyleCore env style save ignoreDigest now
  match core.1 with
  | .ok saved =>
    { result := .updated saved, downloads := core.2.1, saves := core.2.2,
      logs := [STATES.UPDATED ++ " #" ++ toString style.id ++ " " ++ style.name] }
  | .error e =>
    let rep := reportFailure style e
    { result := rep.1, downloads := core.2.1, saves := core.2.2, logs := rep.2 }

/-- `schedule()`: with a non-zero `updateInterval` (hours), re-arm the
debounced trigger after `max(10e3, interval - max(0, now - lastUpdateTime))`
milliseconds (only the most recent pending trigger survives a re-arm);
with interval zero, unregister (cancel) any pending trigger (`none`). -/
def schedule (updateInterval : Nat) (now lastUpdateTime : Int) : Option Int :=
  let interval : Int := (updateInterval : Int) * 60 * 60 * 1000
  if interval ≠ 0 then
    let elapsed := max 0 (now - lastUpdateTime)
    some (max 10000 (interval - elapsed))
  else
    none

/-- One queued log entry: the text and its wall-clock timestamp string. -/
structure LogItem where
  text : String
  time : String
deriving DecidableEq, Repr

/-- JS truthiness of `lines[lines.length - 1]`. -/
def lastLineTruthy (lines : List String) : Bool :=
  match lines.getLast? with
  | some s => s ≠ ""
  | none => false

/-- `flushQueue(stored)` with the store already read: `stored` are the
persisted `lines`, `queue` the in-memory `logQueue` (never empty when the
flush fires: `log()` pushes before scheduling it), `stale` is
`Date.now() - logLastWriteTime > 11e3`.  A leading empty entry becomes a
separator line (collapsed when the log already ends in one); the stored
lines are trimmed to their most recent 1000 by
`lines.splice(0, lines.length - 1000)` BEFORE the queued batch is pushed;
the first pushed line carries the timestamp prefix when stale. -/
def flushQueue (stored : List String) (queue : List LogItem) (stale : Bool) :
    List String :=
  match queue with
  | [] => stored
  | first :: rest =>
    let time := if stale then first.time ++ " " else ""
    let queue2 := if first.text = "" then rest else first :: rest
    let lines1 :=
      if first.text = "" ∧ lastLineTruthy stored then stored ++ [""] else stored
    let lines2 := lines1.drop (lines1.length - 1000)
    let headText :=
      match queue2.head? with
      | some it => it.text
      | none => ""
    lines2 ++ [time ++ headText] ++ (queue2.drop 1).map LogItem.text

/-! Concrete fixtures used by witnesses and counterexamples. -/

/-- A baseline environment: digest oracle returns `DIGEST`, downloads
succeed with empty text, parsing and building fail, versions compare
equal, section lists never compare equal. -/
def testEnv : Env where
  calcStyleDigest := fun _ => "DIGEST"
  download := fun _ => .ok ""
  tryJSONparse := fun _ => none
  buildMeta := fun _ => .error (.str "meta failure")
  buildCode := fun _ => .error (.str "build failure")
  semverCompare := fun _ _ => 0
  styleSectionsEqual := fun _ _ => false

/-- A baseline legacy style whose `originalDigest` matches `testEnv`'s
digest oracle. -/
def testStyle : Style where
  id := 1
  name := "Style"
  originalName := "Style"
  sourceCode := "code"
  sections := [⟨some "a"⟩]
  originalDigest := some "DIGEST"
  originalMd5 := none
  md5Url := "https://example.org/md5"
  updateUrl := "https://example.org/style"
  usercssVersion := none

/-- A well-formed 32-character MD5 string for fixtures. -/
def md5sample : String := "0123456789abcdef0123456789abcdef"

/-- Environment whose downloads all answer `abc`: the md5 fetch yields a
malformed (3-character) MD5. -/
def envC2 : Env := { testEnv with download := fun _ => Except.ok "abc" }

/-- Legacy style whose stored `originalMd5` equals the fetched (malformed)
`abc` and whose digest matches the digest oracle. -/
def styleC2 : Style := { testStyle with originalMd5 := some "abc" }

/-- Environment whose downloads all answer the well-formed `md5sample`. -/
def envC2w : Env := { testEnv with download := fun _ => Except.ok md5sample }

/-- Legacy style whose stored `originalMd5` equals `md5sample`. -/
def styleC2w : Style := { testStyle with originalMd5 := some md5sample }

/-- Environment whose section-equality oracle always answers `true`. -/
def envEq : Env := { testEnv with styleSectionsEqual := fun _ _ => true }

/-- A candidate document that passes `styleJSONseemsValid`. -/
def docValid : StyleDoc := { emptyDoc with sections := some [⟨some "a"⟩] }

/-- Environment whose every download fails with transport status 503. -/
def envC6 : Env := { testEnv with download := fun _ => Except.error 503 }

/-- Environment whose every download fails with transport status 0
(server unreachable). -/
def envC9 : Env := { testEnv with download := fun _ => Except.error 0 }

/-! Theorems for the claims. -/

/-- Stamping a candidate does not touch its `sections`. -/
theorem stampDoc_sections (style : Style) (now : Nat) (j : StyleDoc) :
    (stampDoc style now j).sections = j.sections := by
  by_cases h : style.originalName ≠ style.name ∧ j.name ≠ some style.name <;>
    simp [stampDoc, h]

/-- Stamping a candidate sets its `reason` to `update`. -/
theorem stampDoc_reason (style : Style) (now : Nat) (j : StyleDoc) :
    (stampDoc style now j).reason = some "update" := by
  by_cases h : style.originalName ≠ style.name ∧ j.name ≠ some style.name <;>
    simp [stampDoc, h]

/-- Stamping a candidate does not touch its `usercssData`. -/
theorem stampDoc_usercssData (style : Style) (now : Nat) (j : StyleDoc) :
    (stampDoc style now j).usercssData = j.usercssData := by
  by_cases h : style.originalName ≠ style.name ∧ j.name ≠ some style.name <;>
    simp [stampDoc, h]

/-- C1: for any artifact whose `originalDigest` is set (truthy) and
differs from the freshly computed digest of its code sections, a
reconciliation run with `ignoreDigest = false` resolves with the skip
outcome `EDITED` and performs no store write (and no download either). -/
theorem c1_edit_guard (env : Env) (style : Style) (save : Bool) (now : Nat)
    (d : String) (hset : style.originalDigest = some d) (hne : d ≠ "")
    (hdiff : d ≠ env.calcStyleDigest style) :
    (checkStyle env style save false now).result = .failure (.str STATES.EDITED) ∧
    (checkStyle env style save false now).saves = [] ∧
    (checkStyle env style save false now).downloads = [] := by
  have hguard : checkIfEdited style (env.calcStyleDigest style)
      = .error (.str STATES.EDITED) := by
    unfold checkIfEdited
    rw [hset]
    simp [hne, hdiff]
  simp [checkStyle, checkStyleCore, hguard, reportFailure]

/-- C1 witness: a style with stored digest `OLD` while the digest engine
computes `DIGEST`. -/
theorem c1_edit_guard_witness :
    (checkStyle testEnv { testStyle with originalDigest := some "OLD" }
        true false 0).result = .failure (.str STATES.EDITED) ∧
    (checkStyle testEnv { testStyle with originalDigest := some "OLD" }
        true false 0).saves = [] ∧
    (checkStyle testEnv { testStyle with originalDigest := some "OLD" }
        true false 0).downloads = [] :=
  c1_edit_guard testEnv { testStyle with originalDigest := some "OLD" }
    true 0 "OLD" rfl (by decide) (by decide)

/-- C2 counterexample: a legacy artifact whose fetched MD5 (`abc`) equals
the stored `originalMd5`, with `originalDigest` set and matching the
current digest and `ignoreDigest = false`, satisfies every premise of the
claim, yet reconciliation returns `ERROR_MD5` (the 32-character
well-formedness check fires first), not `SAME_MD5`. -/
theorem c2_counterexample :
    styleC2.usercssVersion = none ∧
    envC2.download styleC2.md5Url = .ok "abc" ∧
    styleC2.originalMd5 = some "abc" ∧
    truthyStr styleC2.originalDigest = true ∧
    (checkStyle envC2 styleC2 true false 0).result
        = .failure (.str STATES.ERROR_MD5) ∧
    (checkStyle envC2 styleC2 true false 0).result
        ≠ .failure (.str STATES.SAME_MD5) := by
  refine ⟨rfl, rfl, rfl, rfl, rfl, ?_⟩
  decide

/-- C2 (amended): for a legacy artifact that passes the edit guard
(`originalDigest` equals the current digest and is non-empty), when the
fetched MD5 is a well-formed 32-character string equal to the stored
`originalMd5` and `ignoreDigest = false`, reconciliation resolves with
`SAME_MD5`, downloads only the md5 URL (no second fetch of the full
document) and writes nothing to the store. -/
theorem c2_same_md5 (env : Env) (style : Style) (save : Bool) (now : Nat)
    (md5 : String) (hleg : style.usercssVersion = none)
    (hdl : env.download style.md5Url = .ok md5) (hlen : md5.length = 32)
    (hmd5 : style.originalMd5 = some md5)
    (hguard : style.originalDigest = some (env.calcStyleDigest style))
    (hd : env.calcStyleDigest style ≠ "") :
    (checkStyle env style save false now).result = .failure (.str STATES.SAME_MD5) ∧
    (checkStyle env style save false now).downloads = [style.md5Url] ∧
    (checkStyle env style save false now).saves = [] := by
  have hguard2 : checkIfEdited style (env.calcStyleDigest style) = .ok () := by
    unfold checkIfEdited
    rw [hguard]
    simp
  have hne : md5 ≠ "" := by
    intro h
    rw [h] at hlen
    simp at hlen
  have htr : truthyStr style.originalDigest = true := by
    rw [hguard]
    simp [truthyStr, hd]
  have huso : maybeUpdateUSO env style false
      = (.error (.str STATES.SAME_MD5), [style.md5Url]) := by
    unfold maybeUpdateUSO
    rw [hdl]
    simp [hlen, hne, hmd5, htr]
  simp [checkStyle, checkStyleCore, hguard2, hleg, huso, reportFailure]

/-- C2 witness: the amended theorem applied to a legacy style whose
stored MD5 equals the fetched well-formed `md5sample`. -/
theorem c2_same_md5_witness :
    (checkStyle envC2w styleC2w true false 0).result
        = .failure (.str STATES.SAME_MD5) ∧
    (checkStyle envC2w styleC2w true false 0).downloads = [styleC2w.md5Url] ∧
    (checkStyle envC2w styleC2w true false 0).saves = [] :=
  c2_same_md5 envC2w styleC2w true 0 md5sample rfl rfl (by decide) rfl rfl
    (by decide)

/-- C3: the version-comparison branch of the usercss path, in terms of
`Math.sign(semverCompare(localVersion, remoteVersion))`: `0` with
`ignoreDigest = false` → `SAME_VERSION`; `0` with `ignoreDigest = true`
and remote text verbatim equal to the stored source → `SAME_CODE`;
`1` (remote strictly older) → `ERROR_VERSION` for either value of
`ignoreDigest`; `-1` (remote strictly newer), or `0` under `ignoreDigest`
with differing text → proceed to `usercss.buildCode`. -/
theorem c3_version_branch (env : Env) (style : Style) (ignoreDigest : Bool)
    (text : String) (meta : UMeta)
    (hdl : env.download style.updateUrl = .ok text)
    (hbm : env.buildMeta text = .ok meta) :
    (((env.semverCompare (style.usercssVersion.getD "") meta.version).sign = 0 ∧
        ignoreDigest = false) →
      (maybeUpdateUsercss env style ignoreDigest).1
        = .error (.str STATES.SAME_VERSION)) ∧
    (((env.semverCompare (style.usercssVersion.getD "") meta.version).sign = 0 ∧
        ignoreDigest = true ∧ text = style.sourceCode) →
      (maybeUpdateUsercss env style ignoreDigest).1
        = .error (.str STATES.SAME_CODE)) ∧
    ((env.semverCompare (style.usercssVersion.getD "") meta.version).sign = 1 →
      (maybeUpdateUsercss env style ignoreDigest).1
        = .error (.str STATES.ERROR_VERSION)) ∧
    ((env.semverCompare (style.usercssVersion.getD "") meta.version).sign = -1 →
      (maybeUpdateUsercss env style ignoreDigest).1 = env.buildCode meta) ∧
    (((env.semverCompare (style.usercssVersion.getD "") meta.version).sign = 0 ∧
        ignoreDigest = true ∧ text ≠ style.sourceCode) →
      (maybeUpdateUsercss env style ignoreDigest).1 = env.buildCode meta) := by
  unfold maybeUpdateUsercss
  simp only [hdl, hbm]
  refine ⟨?_, ?_, ?_, ?_, ?_⟩
  · rintro ⟨h0, hig⟩
    simp [h0, hig]
  · rintro ⟨h0, hig, heq⟩
    simp [h0, hig, heq]
  · intro h1
    simp [h1]
  · intro hm
    simp [hm]
  · rintro ⟨h0, hig, hne⟩
    simp [h0, hig, hne]

/-- C3 witness: equal versions with `ignoreDigest = false` yield
`SAME_VERSION` on a concrete usercss style. -/
theorem c3_version_branch_witness :
    (maybeUpdateUsercss
        { testEnv with
            download := fun _ => Except.ok "text",
            buildMeta := fun _ => Except.ok ⟨"1.0.0"⟩ }
        { testStyle with usercssVersion := some "1.0.0" } false).1
      = .error (.str STATES.SAME_VERSION) :=
  (c3_version_branch
      { testEnv with
          download := fun _ => Except.ok "text",
          buildMeta := fun _ => Except.ok ⟨"1.0.0"⟩ }
      { testStyle with usercssVersion := some "1.0.0" } false "text" ⟨"1.0.0"⟩
      rfl rfl).1 ⟨by decide, rfl⟩

/-- C4: when the (stamped) candidate's code sections compare equal to the
local style's sections, `maybeSave` persists a digest-refresh patch —
the stamped candidate with reason `update-digest`, through `saveStyle` —
for either value of `save`, and rejects `SAME_CODE`; the outcome is never
`Updated`. -/
theorem c4_digest_refresh (env : Env) (style : Style) (save ignoreDigest : Bool)
    (now : Nat) (json0 : StyleDoc)
    (hvalid : json0.usercssData = true ∨ styleJSONseemsValid json0 = true)
    (heq : env.styleSectionsEqual json0.sections style.sections = true) :
    (maybeSave env style save ignoreDigest now json0).1
      = .error (.str STATES.SAME_CODE) ∧
    (maybeSave env style save ignoreDigest now json0).2
      = [⟨.saveStyle,
          { stampDoc style now json0 with reason := some "update-digest" }⟩] := by
  have hs := stampDoc_sections style now json0
  unfold maybeSave
  rcases hvalid with h | h <;> simp [h, hs, heq]

/-- C4 witness: a digest-refresh on a concrete valid candidate with
`save = false`. -/
theorem c4_digest_refresh_witness :
    (maybeSave envEq testStyle false false 0 docValid).1
      = .error (.str STATES.SAME_CODE) ∧
    (maybeSave envEq testStyle false false 0 docValid).2
      = [⟨.saveStyle,
          { stampDoc testStyle 0 docValid with reason := some "update-digest" }⟩] :=
  c4_digest_refresh envEq testStyle false false 0 docValid (Or.inr (by decide)) rfl

/-- C5: when the candidate's sections differ from the local ones, the
local style has no truthy `originalDigest` and `ignoreDigest = false`,
`maybeSave` rejects `MAYBE_EDITED` and performs no store write. -/
theorem c5_maybe_edited (env : Env) (style : Style) (save : Bool) (now : Nat)
    (json0 : StyleDoc)
    (hvalid : json0.usercssData = true ∨ styleJSONseemsValid json0 = true)
    (hneq : env.styleSectionsEqual json0.sections style.sections = false)
    (hnod : truthyStr style.originalDigest = false) :
    (maybeSave env style save false now json0).1
      = .error (.str STATES.MAYBE_EDITED) ∧
    (maybeSave env style save false now json0).2 = [] := by
  have hs := stampDoc_sections style now json0
  unfold maybeSave
  rcases hvalid with h | h <;> simp [h, hs, hneq, hnod]

/-- C5 witness: a concrete style with no `originalDigest` and a differing
valid candidate, under `save = true`. -/
theorem c5_maybe_edited_witness :
    (maybeSave testEnv { testStyle with originalDigest := none }
        true false 0 docValid).1 = .error (.str STATES.MAYBE_EDITED) ∧
    (maybeSave testEnv { testStyle with originalDigest := none }
        true false 0 docValid).2 = [] :=
  c5_maybe_edited testEnv { testStyle with originalDigest := none } true 0
    docValid (Or.inr (by decide)) rfl rfl

/-- C10: the digest-refresh write carries reason `update-digest`
(overwriting the `update` reason stamped on the candidate) and goes
through `saveStyle`, for either value of `save`; a full update write
carries reason `update` and goes through `saveUsercss` exactly when the
candidate has `usercssData`. -/
theorem c10_save_reasons (env : Env) (style : Style) (ignoreDigest : Bool)
    (now : Nat) (json0 : StyleDoc)
    (hvalid : json0.usercssData = true ∨ styleJSONseemsValid json0 = true) :
    (env.styleSectionsEqual json0.sections style.sections = true →
      ∀ save : Bool, ∃ c : SaveCall,
        (maybeSave env style save ignoreDigest now json0).2 = [c] ∧
        c.api = .saveStyle ∧ c.doc.reason = some "update-digest") ∧
    (env.styleSectionsEqual json0.sections style.sections = false →
      (truthyStr style.originalDigest = true ∨ ignoreDigest = true) →
      ∃ c : SaveCall,
        (maybeSave env style true ignoreDigest now json0).2 = [c] ∧
        c.api = (if json0.usercssData then .saveUsercss else .saveStyle) ∧
        c.doc.reason = some "update") := by
  have hs := stampDoc_sections style now json0
  have hr := stampDoc_reason style now json0
  have hu := stampDoc_usercssData style now json0
  constructor
  · intro heq save
    refine ⟨⟨.saveStyle,
      { stampDoc style now json0 with reason := some "update-digest" }⟩, ?_, rfl, rfl⟩
    unfold maybeSave
    rcases hvalid with h | h <;> simp [h, hs, heq]
  · intro hneq hdig
    refine ⟨⟨if json0.usercssData then .saveUsercss else .saveStyle,
      stampDoc style now json0⟩, ?_, rfl, hr⟩
    unfold maybeSave
    rcases hvalid with h | h <;> rcases hdig with h2 | h2 <;>
      simp [h, h2, hs, hu, hneq]

/-- C10 witness: the digest-refresh write on a concrete valid candidate
has api `saveStyle` and reason `update-digest`. -/
theorem c10_save_reasons_witness :
    ∃ c : SaveCall,
      (maybeSave envEq testStyle false false 0 docValid).2 = [c] ∧
      c.api = .saveStyle ∧ c.doc.reason = some "update-digest" :=
  (c10_save_reasons envEq testStyle false 0 docValid (Or.inr (by decide))).1
    rfl false

/-- C6 (code behaviour at the claim's failing input): on a fetch failure
with transport status 503 the `.catch` handler evaluates
`retrying.get(id)` although `retrying` is a `Set` (which has no `get`
method), so the per-artifact check rejects with a `TypeError`: no retry
is attempted (one single download), no skip is logged, and success is
never reported. -/
theorem c6_retry_bug :
    (checkStyle envC6 testStyle true false 0).result
      = .thrown "TypeError: retrying.get is not a function" ∧
    (checkStyle envC6 testStyle true false 0).downloads = [testStyle.md5Url] ∧
    (checkStyle envC6 testStyle true false 0).saves = [] ∧
    (checkStyle envC6 testStyle true false 0).logs = [] := by
  decide

/-- C9: when the core pipeline rejects with any non-503 reason, the check
resolves (does not reject) with an error result; a transport status of 0
is replaced by `server unreachable` in both the reported error value and
the logged `skipped` line, and every other reason is reported verbatim. -/
theorem c9_failure_report (env : Env) (style : Style) (save ignoreDigest : Bool)
    (now : Nat) (e : JsVal)
    (he : (checkStyleCore env style save ignoreDigest now).1 = .error e)
    (h503 : e ≠ .num 503) :
    (checkStyle env style save ignoreDigest now).result
      = .failure (if e = .num 0 then JsVal.str "server unreachable" else e) ∧
    (checkStyle env style save ignoreDigest now).logs
      = [STATES.SKIPPED ++ " (" ++
          jsDisplay (if e = .num 0 then JsVal.str "server unreachable" else e) ++
          ") #" ++ toString style.id ++ " " ++ style.name] := by
  unfold checkStyle
  simp only [he]
  simp [reportFailure, h503]

/-- C9 witness: a check whose fetch fails with status 0 resolves with
`server unreachable` and logs it. -/
theorem c9_failure_report_witness :
    (checkStyle envC9 testStyle true false 0).result
      = .failure (.str "server unreachable") ∧
    (checkStyle envC9 testStyle true false 0).logs
      = ["skipped (server unreachable) #1 Style"] := by
  have h := c9_failure_report envC9 testStyle true false 0 (.num 0)
    rfl (by decide)
  revert h
  decide

/-- C8: with a non-zero configured hours-interval, `schedule` re-arms the
debounced trigger after `interval − elapsed` milliseconds floored at
10000 ms (elapsed itself floored at 0); with interval zero it cancels any
pending trigger. -/
theorem c8_schedule_floor (updateInterval : Nat) (now last : Int) :
    (updateInterval ≠ 0 →
      schedule updateInterval now last
        = some (max 10000
            ((updateInterval : Int) * 60 * 60 * 1000 - max 0 (now - last))) ∧
      ∀ d : Int, schedule updateInterval now last = some d → 10000 ≤ d) ∧
    (updateInterval = 0 → schedule updateInterval now last = none) := by
  constructor
  · intro h
    have hone : (1 : Int) ≤ (updateInterval : Int) := by
      exact_mod_cast Nat.one_le_iff_ne_zero.mpr h
    have hi : ((updateInterval : Int) * 60 * 60 * 1000) ≠ 0 := by nlinarith
    constructor
    · simp [schedule, hi]
    · intro d hd
      simp [schedule, hi] at hd
      rw [← hd]
      exact le_max_left _ _
  · intro h
    simp [schedule, h]

/-- C8 witness: one hour interval with 5 seconds elapsed re-arms after
3595000 ms; a zero interval cancels. -/
theorem c8_schedule_floor_witness :
    schedule 1 5000 0 = some 3595000 ∧ schedule 0 5000 0 = none := by
  have h1 := (c8_schedule_floor 1 5000 0).1 (by decide)
  have h2 := (c8_schedule_floor 0 5000 0).2 rfl
  refine ⟨?_, h2⟩
  rw [h1.1]
  decide

/-- C7 counterexample: a flush of a 2-line batch onto a persisted log
already holding 1000 lines leaves 1002 persisted lines, so the persisted
length is not capped at exactly 1000 after every flush. -/
theorem c7_counterexample :
    (flushQueue (List.replicate 1000 "x") [⟨"a", "t"⟩, ⟨"b", "t"⟩] false).length
      = 1002 := by
  simp [flushQueue, List.length_replicate]

/-- C7 (amended): each flush first trims the previously persisted lines
to their most recent 1000 (oldest trimmed first) and then appends the
queued batch, so the persisted length is at most 1000 plus the batch
size; when the batch does not start with a separator line, the result is
exactly the most recent 1000 old lines followed by the batch in order. -/
theorem c7_trim_before_append (stored : List String) (stale : Bool)
    (first : LogItem) (rest : List LogItem) :
    (flushQueue stored (first :: rest) stale).length
      ≤ 1000 + (first :: rest).length ∧
    (first.text ≠ "" →
      flushQueue stored (first :: rest) stale
        = stored.drop (stored.length - 1000) ++
            ((if stale then first.time ++ " " else "") ++ first.text)
              :: rest.map LogItem.text) := by
  constructor
  · by_cases h : first.text = "" <;> by_cases hl : lastLineTruthy stored <;>
      cases rest <;>
      simp [flushQueue, h, hl, List.length_append, List.length_drop,
        List.length_map] <;> omega
  · intro h
    simp [flushQueue, h]

/-- C7 witness: a concrete flush of `["a", "b"]` onto a one-line log. -/
theorem c7_trim_before_append_witness :
    (flushQueue ["x"] [⟨"a", "t"⟩, ⟨"b", "t"⟩] false).length ≤ 1002 ∧
    flushQueue ["x"] [⟨"a", "t"⟩, ⟨"b", "t"⟩] false = ["x", "a", "b"] := by
  have h := c7_trim_before_append ["x"] false ⟨"a", "t"⟩ [⟨"b", "t"⟩]
  have h2 := h.2 (by decide)
  refine ⟨by simpa using h.1, ?_⟩
  rw [h2]
  decide

end Update
